import Mathlib

/-!
Verification of the safety / mood pipeline of `src/app.py` (AI Mental Wellness
Companion, a single-file Streamlit application).

The Python source is shallowly embedded as executable Lean definitions:

* text primitives (`lower`, `strip`, `join`, `split`, substring containment)
  are modelled character-listwise, matching Python string semantics on the
  ASCII inputs the pipeline deals with;
* every call to the external LLM service is modelled by an oracle argument of
  type `Except Unit String`: `Except.ok r` means the call returned text `r`,
  `Except.error ()` means the call raised an exception;
* the ambient Streamlit session state is the explicit `AppState` record whose
  fields are exactly the PERSISTENT_KEYS of the source;
* ISO date strings are modelled by `DateStr`: `DateStr.iso d` is the canonical
  "YYYY-MM-DD" rendering of day `d` (days numbered by an integer),
  `DateStr.bad s` is any string rejected by `date.fromisoformat` (which, on
  the Python versions targeted, accepts exactly the canonical form);
* the mutating page handlers (chat submission, daily check-in, journal save,
  sidebar streak refresh) become state-transition functions on `AppState`.
-/

/-! ## Character-list string primitives (Python `lower`, `in`, `strip`, `join`, `split`) -/

/-- Embedding of `text.lower()` as a character list (ASCII lowering). -/
def lowerL (s : String) : List Char := s.toList.map Char.toLower

/-- Embedding of the Python substring test `needle in hay`. -/
def strIn (needle : List Char) : List Char → Bool
  | [] => needle.isEmpty
  | c :: rest => needle.isPrefixOf (c :: rest) || strIn needle rest

/-- Embedding of Python `s.strip()`: drop whitespace from both ends. -/
def pyStrip (s : String) : String :=
  String.mk (((s.toList.dropWhile Char.isWhitespace).reverse.dropWhile Char.isWhitespace).reverse)

/-- Recursion underlying Python `sep.join(parts)`. -/
def joinL (sep : List Char) : List (List Char) → List Char
  | [] => []
  | [x] => x
  | x :: y :: rest => x ++ sep ++ joinL sep (y :: rest)

/-- Embedding of Python `sep.join(parts)`. -/
def pyJoin (sep : String) (parts : List String) : String :=
  String.mk (joinL sep.toList (parts.map String.toList))

/-- Embedding of Python `s.split()`: split on whitespace, dropping empty pieces. -/
def pySplit (s : String) : List String :=
  (s.split Char.isWhitespace).filter (fun t => !t.isEmpty)

/-- Python `l[-n:]`. -/
def lastN (n : Nat) (l : List α) : List α := l.drop (l.length - n)

/-! ## Crisis detection (`CRISIS_WORDS`, `safety_check`, src/app.py lines 236-273) -/

/-- The fixed crisis-phrase list of src/app.py lines 236-270, verbatim. -/
def CRISIS_WORDS : List String := [
  "suicide", "suicidal", "kill myself", "killing myself",
  "end my life", "take my life", "end it all", "end it",
  "i want to die", "i wanna die", "wanna die", "want to die",
  "i\x27m going to die", "i will die", "i should die", "i deserve to die",
  "better off dead", "better off without me", "world without me",
  "no reason to live", "nothing to live for", "not worth living",
  "life is not worth living", "life isn\x27t worth living",
  "self harm", "self-harm", "hurt myself", "harm myself",
  "cut myself", "cutting myself", "burn myself", "burning myself",
  "injure myself", "punish myself", "hurt myself on purpose",
  "want to disappear", "wish i could disappear", "disappear forever",
  "don\x27t want to exist", "don\x27t want to be here", "don\x27t want to be alive",
  "wish i was never born", "wish i wasn\x27t here", "wish i were dead",
  "tired of living", "tired of life", "done with life", "done with everything",
  "can\x27t go on", "can\x27t keep going", "can\x27t do this anymore",
  "no point anymore", "no point in living", "no point going on",
  "give up on life", "giving up on life",
  "goodbye forever", "final goodbye", "last goodbye", "saying goodbye",
  "nobody would miss me", "no one would miss me", "no one cares if i die",
  "nobody cares if i\x27m gone", "everyone is better off without me",
  "i have a plan to", "i\x27ve made a plan", "i\x27ve decided to end",
  "planned my death", "planning to kill",
  "overdose on", "overdosing on", "take all my pills",
  "jump off", "hang myself", "hanging myself"]

/-- Embedding of `safety_check` (line 272-273):
`any(w in text.lower() for w in CRISIS_WORDS)`. -/
def safety_check (text : String) : Bool :=
  CRISIS_WORDS.any (fun w => strIn w.toList (lowerL text))

/-- Minimal model of a dynamically typed Python value passed to `safety_check`. -/
inductive PyVal
  | pyStr (s : String)
  | pyNone
  | pyInt (n : Int)
deriving DecidableEq

/-- Dynamic-dispatch model of `safety_check`: `text.lower()` succeeds only when
the receiver is a `str`; on any other value Python raises `AttributeError`. -/
def safety_check_dyn : PyVal → Except String Bool
  | PyVal.pyStr s => Except.ok (safety_check s)
  | _ => Except.error ("AttributeError")

/-! ## Label taxonomies and normalization (src/app.py lines 295-302, 389-392) -/

/-- The closed chat-emotion taxonomy (the `known` list of line 299). -/
def emotionKnown : List String :=
  ["Anxiety", "Sadness", "Anger", "Burnout", "Positive", "Neutral"]

/-- The closed journal-sentiment taxonomy (the `known` list of line 390). -/
def sentimentKnown : List String := ["Positive", "Negative", "Neutral"]

/-- Embedding of the normalization idiom used at lines 105, 110, 300, 391:
`next((k for k in known if k.lower() in raw.lower()), "Neutral")`. -/
def normalizeLabel (known : List String) (raw : String) : String :=
  (known.find? (fun k => strIn (lowerL k) (lowerL raw))).getD ("Neutral")

/-- Embedding of `score_map.get(emotion, 0)` with the dict of line 301. -/
def score_map (emotion : String) : Rat :=
  if emotion = "Anxiety" then -1
  else if emotion = "Sadness" then -1
  else if emotion = "Anger" then -1
  else if emotion = "Burnout" then -1
  else if emotion = "Positive" then 1
  else if emotion = "Neutral" then 0
  else 0

/-- Embedding of the journal score lookup of line 392:
`{"Positive": 1, "Negative": -1, "Neutral": 0}.get(result, 0)`. -/
def sentiment_score_map (result : String) : Rat :=
  if result = "Positive" then 1
  else if result = "Negative" then -1
  else if result = "Neutral" then 0
  else 0

/-- Embedding of `detect_emotion` (lines 279-302). The chat history is a list
of `(role, message, timestamp)` triples; `llm` is the classification oracle. -/
def detect_emotion (llm : Except Unit String)
    (chat_history : List (String × String × String)) : String × Rat :=
  if chat_history.isEmpty then (("Neutral"), 0)
  else
    let recent_text := pyJoin ("\n")
      ((lastN 6 chat_history).filterMap (fun m => if m.1 = "user" then some m.2.1 else none))
    if pyStrip recent_text = "" then (("Neutral"), 0)
    else
      let emotion0 := match llm with
        | Except.ok content => pyStrip content
        | Except.error _ => ("Neutral")
      let emotion := normalizeLabel emotionKnown emotion0
      (emotion, score_map emotion)

/-- Embedding of `generate_response` (lines 305-328): the reply text, or the
static fallback sentence when the LLM call raises. -/
def generate_response (llm : Except Unit String) : String :=
  match llm with
  | Except.ok r => r
  | Except.error _ =>
    ("I\x27m here for you. The AI service is temporarily unavailable — please try again in a moment.")

/-- Embedding of `analyze_journal_sentiment` (lines 380-394). -/
def analyze_journal_sentiment (llm : Except Unit String) : String × Rat :=
  match llm with
  | Except.error _ => (("Neutral"), 0)
  | Except.ok content =>
    let result := normalizeLabel sentimentKnown (pyStrip content)
    (result, sentiment_score_map result)

/-! ## Dates -/

/-- Model of a stored date string. `iso d` is the canonical ISO rendering of
day number `d` (what `str(date.today())` produces); `bad s` is any string that
`date.fromisoformat` rejects with `ValueError`. -/
inductive DateStr
  | iso (day : Int)
  | bad (s : String)
deriving DecidableEq

/-- Embedding of `date.fromisoformat` restricted to the model: `none` means the
call raises `ValueError`. -/
def parseDate : DateStr → Option Int
  | DateStr.iso d => some d
  | DateStr.bad _ => none

/-! ## Session state (the PERSISTENT_KEYS of src/app.py lines 63-88) -/

/-- A journal entry as appended at lines 714-719. -/
structure JEntry where
  date : String
  text : String
  sentiment : String
  word_count : Nat
deriving DecidableEq

/-- A gratitude entry as appended at line 799. -/
structure GEntry where
  date : String
  items : List String
deriving DecidableEq

/-- The per-user session state: exactly the fourteen PERSISTENT_KEYS. -/
structure AppState where
  mood_scores : List Rat
  mood_labels : List String
  mood_dates : List String
  chat_history : List (String × String × String)
  journal_entries : List JEntry
  gratitude_entries : List GEntry
  check_in_done_today : Bool
  last_check_in_date : Option DateStr
  streak : Int
  writing_streak : Int
  last_journal_date : Option DateStr
  affirmation_of_day : Option String
  affirmation_date : Option DateStr
  streak_updated_date : Option DateStr
deriving DecidableEq

/-- PROFILE_DEFAULTS (lines 73-88): the all-empty fresh profile. -/
def emptyState : AppState :=
  { mood_scores := []
    mood_labels := []
    mood_dates := []
    chat_history := []
    journal_entries := []
    gratitude_entries := []
    check_in_done_today := false
    last_check_in_date := none
    streak := 0
    writing_streak := 0
    last_journal_date := none
    affirmation_of_day := none
    affirmation_date := none
    streak_updated_date := none }

/-! ## Streak updates (src/app.py lines 203-219 and 724-737) -/

/-- The new check-in streak value computed by the sidebar block, lines 205-217. -/
def sidebarStreak (today : Int) (s : AppState) : Int :=
  match s.last_check_in_date with
  | none => 1
  | some d =>
    match parseDate d with
    | none => 1
    | some last =>
      if last = today - 1 then s.streak + 1
      else if last ≠ today then 1
      else s.streak

/-- Embedding of the sidebar streak refresh (lines 204-219), guarded by the
`streak_updated_date` once-per-day marker. -/
def sidebarUpdate (today : Int) (s : AppState) : AppState :=
  if s.streak_updated_date ≠ some (DateStr.iso today) then
    { s with streak := sidebarStreak today s,
             streak_updated_date := some (DateStr.iso today) }
  else s

/-- The new writing streak value computed by the journal block, lines 726-736. -/
def journalStreak (today : Int) (s : AppState) : Int :=
  match s.last_journal_date with
  | none => 1
  | some d =>
    match parseDate d with
    | none => 1
    | some last => if last = today - 1 then s.writing_streak + 1 else 1

/-- Embedding of the writing streak update (lines 725-737), guarded by
`last_journal_date` itself as the once-per-day marker. -/
def journalStreakUpd (today : Int) (s : AppState) : AppState :=
  if s.last_journal_date ≠ some (DateStr.iso today) then
    { s with writing_streak := journalStreak today s,
             last_journal_date := some (DateStr.iso today) }
  else s

/-! ## The mutating page handlers -/

/-- Embedding of the chat submission handler (lines 543-568): the crisis branch
shows the static resources message and mutates nothing; otherwise the user
message, one mood record and the assistant reply are appended. -/
def chatTurn (emoLLM replyLLM : Except Unit String) (ts tsMood : String)
    (s : AppState) (user_input : String) : AppState :=
  if safety_check user_input then s
  else
    let s1 := { s with chat_history := s.chat_history ++ [(("user"), user_input, ts)] }
    let er := detect_emotion emoLLM s1.chat_history
    let s2 := { s1 with
      mood_scores := s1.mood_scores ++ [er.2],
      mood_labels := s1.mood_labels ++ [er.1],
      mood_dates := s1.mood_dates ++ [tsMood] }
    { s2 with chat_history := s2.chat_history ++ [(("assistant"), generate_response replyLLM, ts)] }

/-- The five options of the daily check-in slider (line 459). -/
inductive MoodChoice
  | veryLow | low | neutral | good | great
deriving DecidableEq

/-- The check-in score dict of line 464. -/
def checkin_score_map : MoodChoice → Rat
  | MoodChoice.veryLow => -1
  | MoodChoice.low => -(1/2)
  | MoodChoice.neutral => 0
  | MoodChoice.good => 1/2
  | MoodChoice.great => 1

/-- The check-in label dict of lines 465-466. -/
def checkin_label_map : MoodChoice → String
  | MoodChoice.veryLow => ("Sadness")
  | MoodChoice.low => ("Sadness")
  | MoodChoice.neutral => ("Neutral")
  | MoodChoice.good => ("Positive")
  | MoodChoice.great => ("Positive")

/-- Embedding of the daily check-in handler (lines 453-472): available only
when the guard of line 453 holds, it appends one mood record and marks the
check-in done for today. -/
def checkInTurn (mood : MoodChoice) (today : Int) (ts : String) (s : AppState) : AppState :=
  if s.check_in_done_today = false ∨ s.last_check_in_date ≠ some (DateStr.iso today) then
    { s with
      mood_scores := s.mood_scores ++ [checkin_score_map mood],
      mood_labels := s.mood_labels ++ [checkin_label_map mood],
      mood_dates := s.mood_dates ++ [ts],
      check_in_done_today := true,
      last_check_in_date := some (DateStr.iso today) }
  else s

/-- Embedding of the journal save handler (lines 710-743): an all-whitespace
entry is rejected; otherwise one journal entry and one mood record are
appended and the writing streak block runs. -/
def journalSave (text : String) (llm : Except Unit String) (ts : String) (today : Int)
    (s : AppState) : AppState :=
  if pyStrip text = "" then s
  else
    let sr := analyze_journal_sentiment llm
    let s1 := { s with
      journal_entries := s.journal_entries ++
        [{ date := ts, text := text, sentiment := sr.1, word_count := (pySplit text).length }],
      mood_scores := s.mood_scores ++ [sr.2],
      mood_labels := s.mood_labels ++
        [if sr.1 = "Positive" ∨ sr.1 = "Negative" then sr.1 else ("Neutral")],
      mood_dates := s.mood_dates ++ [ts] }
    journalStreakUpd today s1

/-- One mood-recording operation of the app, with its oracle inputs. -/
inductive Op
  | chat (user_input : String) (emoLLM replyLLM : Except Unit String) (ts tsMood : String)
  | checkin (mood : MoodChoice) (today : Int) (ts : String)
  | journal (text : String) (llm : Except Unit String) (ts : String) (today : Int)

/-- Step function: run one operation on the session state. -/
def step : Op → AppState → AppState
  | Op.chat input eo ro ts tsm, s => chatTurn eo ro ts tsm s input
  | Op.checkin mood today ts, s => checkInTurn mood today ts s
  | Op.journal text llm ts today, s => journalSave text llm ts today s

/-- Run a sequence of operations from left to right. -/
def runOps (ops : List Op) (s : AppState) : AppState :=
  ops.foldl (fun st op => step op st) s

/-- The three parallel mood sequences have the same length. -/
def eqLen (s : AppState) : Prop :=
  s.mood_scores.length = s.mood_labels.length ∧ s.mood_labels.length = s.mood_dates.length

/-! ## Persistence (`save_user_data` lines 116-124, `load_user_data` lines 90-114) -/

/-- A persisted JSON payload: each of the fourteen keys may be absent. -/
structure RawPayload where
  mood_scores : Option (List Rat)
  mood_labels : Option (List String)
  mood_dates : Option (List String)
  chat_history : Option (List (String × String × String))
  journal_entries : Option (List JEntry)
  gratitude_entries : Option (List GEntry)
  check_in_done_today : Option Bool
  last_check_in_date : Option (Option DateStr)
  streak : Option Int
  writing_streak : Option Int
  last_journal_date : Option (Option DateStr)
  affirmation_of_day : Option (Option String)
  affirmation_date : Option (Option DateStr)
  streak_updated_date : Option (Option DateStr)
deriving DecidableEq

/-- The payload with every key absent. -/
def emptyPayload : RawPayload :=
  { mood_scores := none, mood_labels := none, mood_dates := none,
    chat_history := none, journal_entries := none, gratitude_entries := none,
    check_in_done_today := none, last_check_in_date := none, streak := none,
    writing_streak := none, last_journal_date := none, affirmation_of_day := none,
    affirmation_date := none, streak_updated_date := none }

/-- The on-disk situation `load_user_data` faces: no file, an unreadable or
malformed file (anything that makes the `try` block raise), or a parsed
payload. -/
inductive StoredFile
  | absent
  | unreadable
  | stored (d : RawPayload)

/-- Sanitization of a persisted journal entry (lines 108-110). -/
def cleanEntry (e : JEntry) : JEntry :=
  { e with sentiment := normalizeLabel sentimentKnown e.sentiment }

/-- Embedding of `load_user_data` (lines 90-114): fill the defaults for
missing keys, re-normalize mood labels and journal sentiments, and fall back
to the fresh default profile when the file is missing or unreadable. -/
def load_user_data : StoredFile → AppState
  | StoredFile.absent => emptyState
  | StoredFile.unreadable => emptyState
  | StoredFile.stored d =>
    { mood_scores := d.mood_scores.getD []
      mood_labels := (d.mood_labels.getD []).map (normalizeLabel emotionKnown)
      mood_dates := d.mood_dates.getD []
      chat_history := d.chat_history.getD []
      journal_entries := (d.journal_entries.getD []).map cleanEntry
      gratitude_entries := d.gratitude_entries.getD []
      check_in_done_today := d.check_in_done_today.getD false
      last_check_in_date := d.last_check_in_date.getD none
      streak := d.streak.getD 0
      writing_streak := d.writing_streak.getD 0
      last_journal_date := d.last_journal_date.getD none
      affirmation_of_day := d.affirmation_of_day.getD none
      affirmation_date := d.affirmation_date.getD none
      streak_updated_date := d.streak_updated_date.getD none }

/-- Embedding of `save_user_data` (lines 116-124): after the bootstrap all
fourteen PERSISTENT_KEYS are in session state, so every key is written. -/
def save_user_data (s : AppState) : StoredFile :=
  StoredFile.stored
    { mood_scores := some s.mood_scores, mood_labels := some s.mood_labels,
      mood_dates := some s.mood_dates, chat_history := some s.chat_history,
      journal_entries := some s.journal_entries, gratitude_entries := some s.gratitude_entries,
      check_in_done_today := some s.check_in_done_today,
      last_check_in_date := some s.last_check_in_date, streak := some s.streak,
      writing_streak := some s.writing_streak, last_journal_date := some s.last_journal_date,
      affirmation_of_day := some s.affirmation_of_day,
      affirmation_date := some s.affirmation_date,
      streak_updated_date := some s.streak_updated_date }

/-- The in-memory profile with its labels re-normalized, as the loader does. -/
def cleanState (s : AppState) : AppState :=
  { s with mood_labels := s.mood_labels.map (normalizeLabel emotionKnown),
           journal_entries := s.journal_entries.map cleanEntry }

/-! ## Helper lemmas -/

theorem strIn_iff (needle hay : List Char) :
    strIn needle hay = true ↔ needle <:+: hay := by
  induction hay with
  | nil => simp [strIn, List.isEmpty_iff]
  | cons c rest ih =>
    simp [strIn, List.isPrefixOf_iff_prefix, ih, List.infix_cons_iff]

theorem safety_check_true_iff (text : String) :
    safety_check text = true ↔ ∃ w ∈ CRISIS_WORDS, w.toList <:+: lowerL text := by
  simp [safety_check, List.any_eq_true, strIn_iff]

theorem pyStrip_empty (s : String) (h : ∀ c ∈ s.toList, Char.isWhitespace c = true) :
    pyStrip s = "" := by
  unfold pyStrip
  rw [List.dropWhile_eq_nil_iff.mpr h]
  rfl

theorem joinL_ws (sep : List Char) (hs : ∀ c ∈ sep, Char.isWhitespace c = true) :
    ∀ (parts : List (List Char)),
      (∀ p ∈ parts, ∀ c ∈ p, Char.isWhitespace c = true) →
      ∀ c ∈ joinL sep parts, Char.isWhitespace c = true := by
  intro parts
  induction parts with
  | nil => intro _ c hc; simp [joinL] at hc
  | cons x t ih =>
    cases t with
    | nil => intro h c hc; exact h x (by simp) c hc
    | cons y r =>
      intro h c hc
      simp only [joinL, List.append_assoc, List.mem_append] at hc
      rcases hc with hx | hsep | hj
      · exact h x (by simp) c hx
      · exact hs c hsep
      · exact ih (fun p hp => h p (by simp [hp])) c hj

theorem find?_take (p : α → Bool) :
    ∀ (l : List α) (i : Nat) (hi : i < l.length),
      p (l.get ⟨i, hi⟩) = true →
      (∀ a ∈ l.take i, p a = false) →
      l.find? p = some (l.get ⟨i, hi⟩) := by
  intro l
  induction l with
  | nil => intro i hi; simp at hi
  | cons x t ih =>
    intro i hi hp hprev
    cases i with
    | zero => simpa using List.find?_cons_of_pos _ hp
    | succ k =>
      have hx : p x = false := hprev x (by simp [List.take])
      simp only [List.find?, hx]
      exact ih k (by simpa using hi) hp (fun a ha => hprev a (by simp [List.take, ha]))

theorem map_self (f : α → α) (l : List α) (h : ∀ x ∈ l, f x = x) : l.map f = l := by
  induction l with
  | nil => rfl
  | cons a t ih =>
    simp only [List.map_cons, h a (by simp)]
    rw [ih (fun x hx => h x (by simp [hx]))]

theorem normalizeLabel_mem (known : List String) (hN : ("Neutral") ∈ known)
    (raw : String) : normalizeLabel known raw ∈ known := by
  unfold normalizeLabel
  cases h : known.find? (fun k => strIn (lowerL k) (lowerL raw)) with
  | none => simpa using hN
  | some k => simpa using List.mem_of_find?_eq_some h

theorem normalizeLabel_of_no_match (known : List String) (raw : String)
    (h : ∀ k ∈ known, ¬ (lowerL k <:+: lowerL raw)) :
    normalizeLabel known raw = ("Neutral") := by
  unfold normalizeLabel
  rw [List.find?_eq_none.mpr]
  · rfl
  · intro k hk
    simp [strIn_iff]
    exact h k hk

theorem normalizeLabel_first (known : List String) (raw : String)
    (i : Nat) (hi : i < known.length)
    (hmatch : lowerL (known.get ⟨i, hi⟩) <:+: lowerL raw)
    (hprev : ∀ k ∈ known.take i, ¬ (lowerL k <:+: lowerL raw)) :
    normalizeLabel known raw = known.get ⟨i, hi⟩ := by
  unfold normalizeLabel
  rw [find?_take _ known i hi ((strIn_iff _ _).mpr hmatch)
    (fun a ha => Bool.eq_false_iff.mpr
      (fun hh => hprev a ha ((strIn_iff _ _).mp hh)))]
  rfl

theorem normE_fix : ∀ k ∈ emotionKnown, normalizeLabel emotionKnown k = k := by decide

theorem normS_fix : ∀ k ∈ sentimentKnown, normalizeLabel sentimentKnown k = k := by decide

theorem detect_emotion_error (hist : List (String × String × String)) :
    detect_emotion (Except.error ()) hist = (("Neutral"), 0) := by
  by_cases h1 : hist.isEmpty
  · simp [detect_emotion, h1]
  · by_cases h2 : pyStrip (pyJoin ("\n")
      ((lastN 6 hist).filterMap (fun m => if m.1 = "user" then some m.2.1 else none))) = ""
    · simp [detect_emotion, h1, h2]
    · simp only [detect_emotion, h1, h2, Bool.false_eq_true, if_false]
      rfl

theorem journalStreakUpd_moods (today : Int) (s : AppState) :
    (journalStreakUpd today s).mood_scores = s.mood_scores ∧
    (journalStreakUpd today s).mood_labels = s.mood_labels ∧
    (journalStreakUpd today s).mood_dates = s.mood_dates := by
  unfold journalStreakUpd
  split <;> simp

theorem step_mood_lengths (op : Op) (s : AppState) : ∃ d : Nat, d ≤ 1 ∧
    (step op s).mood_scores.length = s.mood_scores.length + d ∧
    (step op s).mood_labels.length = s.mood_labels.length + d ∧
    (step op s).mood_dates.length = s.mood_dates.length + d := by
  cases op with
  | chat input eo ro ts tsm =>
    by_cases h : safety_check input
    · exact ⟨0, by omega, by simp [step, chatTurn, h]⟩
    · exact ⟨1, by omega, by simp [step, chatTurn, h]⟩
  | checkin mood today ts =>
    by_cases h : s.check_in_done_today = false ∨ s.last_check_in_date ≠ some (DateStr.iso today)
    · exact ⟨1, by omega, by simp [step, checkInTurn, h]⟩
    · exact ⟨0, by omega, by simp [step, checkInTurn, h]⟩
  | journal text llm ts today =>
    by_cases h : pyStrip text = ""
    · exact ⟨0, by omega, by simp [step, journalSave, h]⟩
    · refine ⟨1, by omega, ?_, ?_, ?_⟩
      · simp only [step]; unfold journalSave
        rw [if_neg h, (journalStreakUpd_moods today _).1]; simp
      · simp only [step]; unfold journalSave
        rw [if_neg h, (journalStreakUpd_moods today _).2.1]; simp
      · simp only [step]; unfold journalSave
        rw [if_neg h, (journalStreakUpd_moods today _).2.2]; simp

/-! ## Claim theorems -/

/-- C1: for every user message whose lowercased text contains a crisis phrase,
submitting it in chat leaves the session state unchanged — nothing is appended
to `chat_history`, and `mood_scores`, `mood_labels`, `mood_dates` are not
extended — whatever the emotion-classifier and reply oracles would answer: the
turn short-circuits to the static crisis-resources message. -/
theorem chat_crisis_short_circuit (user_input : String)
    (h : ∃ w ∈ CRISIS_WORDS, w.toList <:+: lowerL user_input)
    (eo ro : Except Unit String) (ts tsMood : String) (s : AppState) :
    step (Op.chat user_input eo ro ts tsMood) s = s := by
  have hs : safety_check user_input = true := (safety_check_true_iff user_input).mpr h
  simp [step, chatTurn, hs]

/-- Witness for C1 at the message "I want to end my life". -/
theorem chat_crisis_short_circuit_witness :
    step (Op.chat ("I want to end my life") (Except.ok ("Anger")) (Except.ok ("ok"))
      ("Jan 01, 10:00") ("2025-01-01 10:00")) emptyState = emptyState :=
  chat_crisis_short_circuit _ ⟨("end my life"), by decide, by decide⟩ _ _ _ _ _

/-- C2 counterexample: the claim says `safety_check` returns false for any
non-string input, but on a non-string receiver `text.lower()` raises
`AttributeError`, so `safety_check(None)` does not return false. -/
theorem safety_check_nonstring_not_false :
    safety_check_dyn PyVal.pyNone ≠ Except.ok false :=
  fun h => Except.noConfusion h

/-- C2 amended: `safety_check` is total over string inputs — it never raises on
a string and returns false for the empty string — while a non-string input
raises `AttributeError` instead of returning false. -/
theorem safety_check_total_on_strings :
    (∀ s : String, safety_check_dyn (PyVal.pyStr s) = Except.ok (safety_check s))
    ∧ safety_check ("") = false
    ∧ (∀ v : PyVal, (∀ s : String, v ≠ PyVal.pyStr s) →
        safety_check_dyn v = Except.error ("AttributeError")) := by
  refine ⟨fun _ => rfl, by decide, ?_⟩
  intro v hv
  cases v with
  | pyStr s => exact absurd rfl (hv s)
  | pyNone => rfl
  | pyInt n => rfl

/-- Witness for the amended C2 at a concrete non-string value. -/
theorem safety_check_total_on_strings_witness :
    safety_check_dyn (PyVal.pyInt 3) = Except.error ("AttributeError") :=
  safety_check_total_on_strings.2.2 (PyVal.pyInt 3) (fun _ h => PyVal.noConfusion h)

/-- C3: `safety_check text` is true exactly when the lowercased text contains
some phrase of `CRISIS_WORDS` as a plain substring (no word boundaries); in
particular any case mixture of a listed phrase occurring verbatim in the text
triggers it. -/
theorem safety_check_substring_spec (text : String) :
    (safety_check text = true ↔ ∃ w ∈ CRISIS_WORDS, w.toList <:+: lowerL text)
    ∧ (∀ w ∈ CRISIS_WORDS, ∀ v : String, lowerL v = w.toList →
        v.toList <:+: text.toList → safety_check text = true) := by
  refine ⟨safety_check_true_iff text, ?_⟩
  intro w hw v hv hinf
  refine (safety_check_true_iff text).mpr ⟨w, hw, ?_⟩
  have hmap := hinf.map Char.toLower
  rw [← hv]
  exact hmap

/-- Witness for C3: a mixed-case crisis phrase inside a longer sentence. -/
theorem safety_check_substring_spec_witness :
    safety_check ("I just want to End It All tonight") = true :=
  (safety_check_substring_spec ("I just want to End It All tonight")).2
    ("end it all") (by decide) ("End It All") (by decide) (by decide)

/-- C4: normalization returns the first taxonomy label whose lowercase form is
a substring of the lowercased raw classifier response, for both the chat
taxonomy and the journal-sentiment taxonomy; it returns Neutral when no label
matches or when the external call fails; every normalized label is a member of
the closed taxonomy. -/
theorem normalizeLabel_spec (raw : String) :
    normalizeLabel emotionKnown raw ∈ emotionKnown
    ∧ normalizeLabel sentimentKnown raw ∈ sentimentKnown
    ∧ ((∀ k ∈ emotionKnown, ¬ (lowerL k <:+: lowerL raw)) →
        normalizeLabel emotionKnown raw = ("Neutral"))
    ∧ (∀ i (hi : i < emotionKnown.length),
        lowerL (emotionKnown.get ⟨i, hi⟩) <:+: lowerL raw →
        (∀ k ∈ emotionKnown.take i, ¬ (lowerL k <:+: lowerL raw)) →
        normalizeLabel emotionKnown raw = emotionKnown.get ⟨i, hi⟩)
    ∧ ((∀ k ∈ sentimentKnown, ¬ (lowerL k <:+: lowerL raw)) →
        normalizeLabel sentimentKnown raw = ("Neutral"))
    ∧ (∀ i (hi : i < sentimentKnown.length),
        lowerL (sentimentKnown.get ⟨i, hi⟩) <:+: lowerL raw →
        (∀ k ∈ sentimentKnown.take i, ¬ (lowerL k <:+: lowerL raw)) →
        normalizeLabel sentimentKnown raw = sentimentKnown.get ⟨i, hi⟩)
    ∧ (∀ hist, detect_emotion (Except.error ()) hist = (("Neutral"), 0))
    ∧ analyze_journal_sentiment (Except.error ()) = (("Neutral"), 0) :=
  ⟨normalizeLabel_mem _ (by decide) raw, normalizeLabel_mem _ (by decide) raw,
    normalizeLabel_of_no_match _ raw, normalizeLabel_first _ raw,
    normalizeLabel_of_no_match _ raw, normalizeLabel_first _ raw,
    detect_emotion_error, rfl⟩

/-- Witness for C4: a dirty mixed-case response normalizes to Burnout. -/
theorem normalizeLabel_spec_witness :
    normalizeLabel emotionKnown ("It sounds like BURNOUT.") = ("Burnout") :=
  (normalizeLabel_spec ("It sounds like BURNOUT.")).2.2.2.1 3 (by decide)
    (by decide) (by decide)

/-- C5: the chat score map is total — exactly -1 on Anxiety, Sadness, Anger
and Burnout, +1 on Positive, 0 on Neutral, and 0 on any label outside the
closed set. -/
theorem score_map_spec :
    score_map ("Anxiety") = -1 ∧ score_map ("Sadness") = -1 ∧ score_map ("Anger") = -1
    ∧ score_map ("Burnout") = -1 ∧ score_map ("Positive") = 1 ∧ score_map ("Neutral") = 0
    ∧ ∀ l : String, l ∉ emotionKnown → score_map l = 0 := by
  refine ⟨rfl, rfl, rfl, rfl, rfl, rfl, ?_⟩
  intro l h
  simp only [emotionKnown, List.mem_cons, List.not_mem_nil, or_false, not_or] at h
  obtain ⟨h1, h2, h3, h4, h5, h6⟩ := h
  simp [score_map, h1, h2, h3, h4, h5, h6]

/-- Witness for C5 at a label outside the taxonomy. -/
theorem score_map_spec_witness : score_map ("Excited") = 0 :=
  score_map_spec.2.2.2.2.2.2 ("Excited") (by decide)

/-- C6: from any state where the three parallel mood sequences have equal
length, any sequence of mood-recording operations (chat turn, daily check-in,
journal save) preserves that equality, and each single operation extends the
three sequences together by the same amount (one element, or none when the
operation short-circuits). -/
theorem mood_lists_aligned (ops : List Op) (s : AppState) (h : eqLen s) :
    eqLen (runOps ops s)
    ∧ ∀ (op : Op) (t : AppState), ∃ d : Nat, d ≤ 1 ∧
        (step op t).mood_scores.length = t.mood_scores.length + d ∧
        (step op t).mood_labels.length = t.mood_labels.length + d ∧
        (step op t).mood_dates.length = t.mood_dates.length + d := by
  have main : ∀ (l : List Op) (t : AppState), eqLen t → eqLen (runOps l t) := by
    intro l
    induction l with
    | nil => intro t ht; exact ht
    | cons op rest ih =>
      intro t ht
      obtain ⟨d, _, h1, h2, h3⟩ := step_mood_lengths op t
      refine ih (step op t) ?_
      unfold eqLen at ht ⊢
      omega
  exact ⟨main ops s h, fun op t => step_mood_lengths op t⟩

/-- Concrete operation sequence used by the C6 witness. -/
def c6Ops : List Op :=
  [Op.checkin MoodChoice.great 5 ("2025-01-05 09:00"),
   Op.journal ("Nice day") (Except.ok ("Positive")) ("2025-01-05 10:00") 5,
   Op.chat ("hello") (Except.error ()) (Except.error ()) ("Jan 05, 11:00") ("2025-01-05 11:00")]

/-- Witness for C6 on a concrete three-operation run from the fresh profile. -/
theorem mood_lists_aligned_witness : eqLen (runOps c6Ops emptyState) :=
  (mood_lists_aligned c6Ops emptyState ⟨rfl, rfl⟩).1

/-- C7: saving a profile and reloading it yields the same profile with its
labels re-normalized; on a profile whose labels are already clean taxonomy
members the round trip is the identity, and a legacy dirty label such as
"Positive." normalizes to "Positive" on load. -/
theorem save_load_round_trip (s : AppState) :
    load_user_data (save_user_data s) = cleanState s
    ∧ (∀ k ∈ emotionKnown, normalizeLabel emotionKnown k = k)
    ∧ (∀ k ∈ sentimentKnown, normalizeLabel sentimentKnown k = k)
    ∧ normalizeLabel emotionKnown ("Positive.") = ("Positive")
    ∧ ((∀ l ∈ s.mood_labels, l ∈ emotionKnown) →
        (∀ e ∈ s.journal_entries, e.sentiment ∈ sentimentKnown) →
        load_user_data (save_user_data s) = s) := by
  have hmain : load_user_data (save_user_data s) = cleanState s := rfl
  refine ⟨hmain, normE_fix, normS_fix, by decide, ?_⟩
  intro h1 h2
  rw [hmain]
  unfold cleanState
  have hm : s.mood_labels.map (normalizeLabel emotionKnown) = s.mood_labels :=
    map_self _ _ (fun l hl => normE_fix l (h1 l hl))
  have hj : s.journal_entries.map cleanEntry = s.journal_entries :=
    map_self _ _ (fun e he => by
      unfold cleanEntry
      rw [normS_fix e.sentiment (h2 e he)])
  rw [hm, hj]

/-- Concrete profile with clean labels used by the C7 witness. -/
def sampleProfile : AppState :=
  { emptyState with
    mood_scores := [1],
    mood_labels := [("Positive")],
    mood_dates := [("2025-01-01 10:00")],
    journal_entries := [{ date := ("2025-01-01 10:00"), text := ("good day"),
                          sentiment := ("Negative"), word_count := 2 }] }

/-- Witness for C7: the round trip is the identity on a clean profile. -/
theorem save_load_round_trip_witness :
    load_user_data (save_user_data sampleProfile) = sampleProfile :=
  (save_load_round_trip sampleProfile).2.2.2.2 (by decide) (by decide)

/-- C8: both daily streaks follow the rule — last activity yesterday
increments, last activity today leaves the streak unchanged, and a gap of more
than one day, an unparsable date or no prior date resets to 1 — and each
update is applied at most once per calendar day through its last-updated
marker (`streak_updated_date` for the check-in streak, `last_journal_date`
itself for the writing streak), making the daily refresh idempotent. -/
theorem streak_update_rule (today : Int) (s : AppState) :
    (s.streak_updated_date ≠ some (DateStr.iso today) →
      s.last_check_in_date = some (DateStr.iso (today - 1)) →
      (sidebarUpdate today s).streak = s.streak + 1)
    ∧ (s.last_check_in_date = some (DateStr.iso today) →
      (sidebarUpdate today s).streak = s.streak)
    ∧ (s.streak_updated_date ≠ some (DateStr.iso today) →
      (s.last_check_in_date = none
        ∨ (∃ b, s.last_check_in_date = some (DateStr.bad b))
        ∨ (∃ n, s.last_check_in_date = some (DateStr.iso n) ∧ n ≠ today ∧ n ≠ today - 1)) →
      (sidebarUpdate today s).streak = 1)
    ∧ (sidebarUpdate today s).streak_updated_date = some (DateStr.iso today)
    ∧ sidebarUpdate today (sidebarUpdate today s) = sidebarUpdate today s
    ∧ (s.last_journal_date = some (DateStr.iso (today - 1)) →
      (journalStreakUpd today s).writing_streak = s.writing_streak + 1)
    ∧ (s.last_journal_date = some (DateStr.iso today) → journalStreakUpd today s = s)
    ∧ ((s.last_journal_date = none
        ∨ (∃ b, s.last_journal_date = some (DateStr.bad b))
        ∨ (∃ n, s.last_journal_date = some (DateStr.iso n) ∧ n ≠ today ∧ n ≠ today - 1)) →
      (journalStreakUpd today s).writing_streak = 1)
    ∧ journalStreakUpd today (journalStreakUpd today s) = journalStreakUpd today s := by
  have sfix : ∀ t : AppState, t.streak_updated_date = some (DateStr.iso today) →
      sidebarUpdate today t = t := by
    intro t ht; simp [sidebarUpdate, ht]
  have jfix : ∀ t : AppState, t.last_journal_date = some (DateStr.iso today) →
      journalStreakUpd today t = t := by
    intro t ht; simp [journalStreakUpd, ht]
  have smark : (sidebarUpdate today s).streak_updated_date = some (DateStr.iso today) := by
    by_cases hm : s.streak_updated_date = some (DateStr.iso today)
    · rw [sfix s hm]; exact hm
    · simp [sidebarUpdate, hm]
  have jmark : (journalStreakUpd today s).last_journal_date = some (DateStr.iso today) := by
    by_cases hm : s.last_journal_date = some (DateStr.iso today)
    · rw [jfix s hm]; exact hm
    · simp [journalStreakUpd, hm]
  refine ⟨?_, ?_, ?_, smark, sfix _ smark, ?_, fun hl => jfix s hl, ?_, jfix _ jmark⟩
  · intro hm hl
    simp [sidebarUpdate, hm, sidebarStreak, hl, parseDate]
  · intro hl
    by_cases hm : s.streak_updated_date = some (DateStr.iso today)
    · rw [sfix s hm]
    · have hne : ¬ (today = today - 1) := by omega
      simp [sidebarUpdate, hm, sidebarStreak, hl, parseDate, hne]
  · intro hm hcase
    rcases hcase with hnone | ⟨b, hb⟩ | ⟨n, hn, hnt, hny⟩
    · simp [sidebarUpdate, hm, sidebarStreak, hnone]
    · simp [sidebarUpdate, hm, sidebarStreak, hb, parseDate]
    · simp [sidebarUpdate, hm, sidebarStreak, hn, parseDate, hnt, hny]
  · intro hl
    have hguard : s.last_journal_date ≠ some (DateStr.iso today) := by
      rw [hl]
      simp only [ne_eq, Option.some.injEq, DateStr.iso.injEq]
      omega
    simp [journalStreakUpd, hguard, journalStreak, hl, parseDate]
  · intro hcase
    rcases hcase with hnone | ⟨b, hb⟩ | ⟨n, hn, hnt, hny⟩
    · have hguard : s.last_journal_date ≠ some (DateStr.iso today) := by simp [hnone]
      simp [journalStreakUpd, hguard, journalStreak, hnone]
    · have hguard : s.last_journal_date ≠ some (DateStr.iso today) := by simp [hb]
      simp [journalStreakUpd, hguard, journalStreak, hb, parseDate]
    · have hguard : s.last_journal_date ≠ some (DateStr.iso today) := by
        rw [hn]
        simp only [ne_eq, Option.some.injEq, DateStr.iso.injEq]
        exact hnt
      simp [journalStreakUpd, hguard, journalStreak, hn, parseDate, hny, hnt]

/-- Concrete state used by the C8 witness: checked in and journaled yesterday. -/
def yesterdayState : AppState :=
  { emptyState with
    streak := 5,
    writing_streak := 2,
    last_check_in_date := some (DateStr.iso 99),
    last_journal_date := some (DateStr.iso 99) }

/-- Witness for C8: both streaks increment on a day-100 refresh after
activity on day 99. -/
theorem streak_update_rule_witness :
    (sidebarUpdate 100 yesterdayState).streak = yesterdayState.streak + 1
    ∧ (journalStreakUpd 100 yesterdayState).writing_streak
      = yesterdayState.writing_streak + 1 :=
  ⟨(streak_update_rule 100 yesterdayState).1 (by decide) (by decide),
   (streak_update_rule 100 yesterdayState).2.2.2.2.2.1 (by decide)⟩

/-- C9: loading a profile never fails: a missing or unreadable/malformed file
yields the all-empty default profile, a payload with every key absent yields
the same defaults, each individually missing key is filled with its documented
default, and every label that reaches memory is re-normalized into the closed
taxonomy. -/
theorem load_recovers (f : StoredFile) :
    (∀ l ∈ (load_user_data f).mood_labels, l ∈ emotionKnown)
    ∧ (∀ e ∈ (load_user_data f).journal_entries, e.sentiment ∈ sentimentKnown)
    ∧ load_user_data StoredFile.absent = emptyState
    ∧ load_user_data StoredFile.unreadable = emptyState
    ∧ load_user_data (StoredFile.stored emptyPayload) = emptyState
    ∧ (∀ d : RawPayload, d.streak = none →
        (load_user_data (StoredFile.stored d)).streak = 0)
    ∧ (∀ d : RawPayload, d.writing_streak = none →
        (load_user_data (StoredFile.stored d)).writing_streak = 0)
    ∧ (∀ d : RawPayload, d.mood_scores = none →
        (load_user_data (StoredFile.stored d)).mood_scores = [])
    ∧ (∀ d : RawPayload, d.last_check_in_date = none →
        (load_user_data (StoredFile.stored d)).last_check_in_date = none) := by
  refine ⟨?_, ?_, rfl, rfl, rfl, ?_, ?_, ?_, ?_⟩
  · cases f with
    | absent => simp [load_user_data, emptyState]
    | unreadable => simp [load_user_data, emptyState]
    | stored d =>
      intro l hl
      simp only [load_user_data, List.mem_map] at hl
      obtain ⟨raw, _, hraw⟩ := hl
      rw [← hraw]
      exact normalizeLabel_mem _ (by decide) raw
  · cases f with
    | absent => simp [load_user_data, emptyState]
    | unreadable => simp [load_user_data, emptyState]
    | stored d =>
      intro e he
      simp only [load_user_data, List.mem_map] at he
      obtain ⟨e0, _, he0⟩ := he
      rw [← he0]
      exact normalizeLabel_mem _ (by decide) e0.sentiment
  · intro d hd; simp [load_user_data, hd]
  · intro d hd; simp [load_user_data, hd]
  · intro d hd; simp [load_user_data, hd]
  · intro d hd; simp [load_user_data, hd]

/-- Witness for C9: the all-missing payload and the unreadable file both give
the defaults. -/
theorem load_recovers_witness :
    load_user_data StoredFile.unreadable = emptyState
    ∧ (load_user_data (StoredFile.stored emptyPayload)).streak = 0 :=
  ⟨(load_recovers StoredFile.unreadable).2.2.2.1,
   (load_recovers (StoredFile.stored emptyPayload)).2.2.2.2.2.1 emptyPayload rfl⟩

/-- C10: `detect_emotion` returns exactly ("Neutral", 0) — independently of
whatever the external classifier oracle would answer, so without consulting
it — whenever the chat history is empty or no user message among the last six
history entries contains a non-whitespace character. -/
theorem detect_emotion_vacuous (hist : List (String × String × String))
    (h : hist = [] ∨ ∀ m ∈ lastN 6 hist, m.1 = "user" →
      ∀ c ∈ m.2.1.toList, Char.isWhitespace c = true)
    (llm : Except Unit String) :
    detect_emotion llm hist = (("Neutral"), 0) := by
  rcases h with he | hws
  · subst he; rfl
  · by_cases h1 : hist.isEmpty
    · simp [detect_emotion, h1]
    · have hstrip : pyStrip (pyJoin ("\n")
          ((lastN 6 hist).filterMap (fun m => if m.1 = "user" then some m.2.1 else none))) = "" := by
        apply pyStrip_empty
        intro c hc
        have hc2 : c ∈ joinL (("\n") : String).toList
            (((lastN 6 hist).filterMap
              (fun m => if m.1 = "user" then some m.2.1 else none)).map String.toList) := hc
        refine joinL_ws _ (by decide) _ ?_ c hc2
        intro p hp
        simp only [List.mem_map, List.mem_filterMap] at hp
        obtain ⟨msg, ⟨m, hm, hfm⟩, hmsg⟩ := hp
        by_cases hu : m.1 = "user"
        · rw [if_pos hu] at hfm
          injection hfm with hfm
          intro c2 hc2m
          rw [← hmsg, ← hfm] at hc2m
          exact hws m hm hu c2 hc2m
        · rw [if_neg hu] at hfm
          exact absurd hfm (by simp)
      simp [detect_emotion, h1, hstrip]

/-- Witness for C10: a single whitespace-only user message, with an oracle
that would have answered Anger. -/
theorem detect_emotion_vacuous_witness :
    detect_emotion (Except.ok ("Anger")) [(("user"), ("   "), ("t1"))] = (("Neutral"), 0) :=
  detect_emotion_vacuous _ (Or.inr (by decide)) _
